import Mathlib

/-!
Verification of the FinanceApp backend (route and statistics layer).

The definitions below are a shallow embedding of `src/server/routes.ts` and
`src/server/storage.ts`.  Monetary amounts and eco-impact figures are modelled
as exact rationals; JavaScript `Math.round(x)` is `⌊x + 1/2⌋`; the relational
store is an explicit record of lists; fallible layers return `Except`.
-/

namespace FinanceApp

/-- Calendar date at day precision, the granularity used by the SQL
`::date` casts and the `EXTRACT(MONTH/YEAR ...)` filters. -/
structure SDate where
  year : Nat
  month : Nat
  day : Nat
deriving DecidableEq

/-- Date comparison `d1 ≤ d2` (lexicographic year, month, day), modelling the
SQL comparison `d1::date <= d2::date`. -/
def SDate.le (d1 d2 : SDate) : Bool :=
  (d1.year < d2.year) ||
  (d1.year == d2.year && d1.month < d2.month) ||
  (d1.year == d2.year && d1.month == d2.month && d1.day ≤ d2.day)

/-- Transaction type enum from the schema: income or expense. -/
inductive TxType where
  | income
  | expense
deriving DecidableEq

/-- A row of the `transactions` table (fields used by the routes and
statistics; `updatedAt` is not present on transactions). -/
structure Transaction where
  id : Nat
  userId : Nat
  type : TxType
  amount : ℚ
  category : String
  description : String
  date : SDate
  ecoImpact : ℚ
  createdAt : Nat
deriving DecidableEq

/-- A row of the `goals` table. -/
structure Goal where
  id : Nat
  userId : Nat
  name : String
  description : String
  targetAmount : ℚ
  currentSaved : ℚ
  targetDate : Option SDate
  completed : Bool
  createdAt : Nat
deriving DecidableEq

/-- A row of the `users` table (password holds the bcrypt hash). -/
structure User where
  id : Nat
  email : String
  password : String
  firstName : String
  lastName : String
  createdAt : Nat
deriving DecidableEq

/-- The relational store: the three tables the verified routes touch. -/
structure Store where
  users : List User
  transactions : List Transaction
  goals : List Goal
deriving DecidableEq

/-- JavaScript `Math.round`: round half toward positive infinity,
`Math.round x = ⌊x + 1/2⌋` (stated executably through `Rat.floor`;
`jsRound_eq_floor` below relates it to the mathematical floor). -/
def jsRound (q : ℚ) : ℤ := Rat.floor (q + 1/2)

/-- The eco-rating step function shared verbatim by `getUserStats`,
`getDashboardStats` and `getMonthlyReport` in `storage.ts`. -/
def ecoRatingOf (totalCo2 : ℚ) : String :=
  if totalCo2 < 50 then "A+"
  else if totalCo2 < 100 then "A"
  else if totalCo2 < 200 then "B+"
  else if totalCo2 < 300 then "B"
  else if totalCo2 < 500 then "C+"
  else "C"

/-- The `switch (validatedData.category)` eco-impact computation in the
`POST /api/transactions` handler of `routes.ts`. -/
def computeEcoImpact (amount : ℚ) (category : String) : ℚ :=
  if category == "transport" then amount * 0.2
  else if category == "food" then amount * 0.15
  else if category == "shopping" then amount * 0.1
  else if category == "utilities" then amount * 0.25
  else amount * 0.05

/-! ### Storage layer (`storage.ts`) -/

/-- `DatabaseStorage.getUserByEmail`: the first user whose email matches. -/
def getUserByEmail (s : Store) (email : String) : Option User :=
  s.users.find? (fun u => u.email == email)

/-- `DatabaseStorage.getTransaction`: the first transaction with the id. -/
def getTransaction (s : Store) (id : Nat) : Option Transaction :=
  s.transactions.find? (fun t => t.id == id)

/-- `DatabaseStorage.deleteTransaction`: `DELETE FROM transactions WHERE id = id`. -/
def deleteTransaction (s : Store) (id : Nat) : Store :=
  { s with transactions := s.transactions.filter (fun t => t.id != id) }

/-- `DatabaseStorage.updateGoalProgress`: server-side increment of
`currentSaved` of the goal with the given id.  Note the update is keyed on
the goal id alone; no owner check appears here or at its call site. -/
def updateGoalProgress (goalId : Nat) (amount : ℚ) (gs : List Goal) : List Goal :=
  gs.map (fun g =>
    if g.id == goalId then { g with currentSaved := g.currentSaved + amount } else g)

/-- Descending creation order, `orderBy desc(createdAt)` on goals. -/
def goalGe (a b : Goal) : Prop := b.createdAt ≤ a.createdAt

instance : DecidableRel goalGe := fun a b => inferInstanceAs (Decidable (b.createdAt ≤ a.createdAt))

instance : IsTotal Goal goalGe := ⟨fun a b => Nat.le_total b.createdAt a.createdAt⟩

instance : IsTrans Goal goalGe := ⟨fun _ _ _ hab hbc => le_trans hbc hab⟩

/-- Descending creation order on transactions, `orderBy desc(createdAt)`. -/
def txGe (a b : Transaction) : Prop := b.createdAt ≤ a.createdAt

instance : DecidableRel txGe := fun a b => inferInstanceAs (Decidable (b.createdAt ≤ a.createdAt))

/-- `DatabaseStorage.getActiveGoals`: the goals of the user with
`targetAmount > currentSaved` and (`targetDate IS NULL` or
`targetDate::date >= today::date`), ordered by `createdAt` descending. -/
def getActiveGoals (userId : Nat) (today : SDate) (gs : List Goal) : List Goal :=
  List.insertionSort goalGe
    (gs.filter (fun g =>
      g.userId == userId &&
      decide (g.currentSaved < g.targetAmount) &&
      (match g.targetDate with
       | none => true
       | some d => SDate.le today d)))

/-- The Russian missing-relation message matched by `getUserGoals`. -/
def missingGoalsRelationMsg : String := "отношение \"goals\" не существует"

/-- The wrapped error message `getUserGoals` rethrows for other failures. -/
def loadGoalsFailedMsg : String := "Не удалось загрузить цели"

/-- Contiguous-substring search on character lists. -/
def includesList (sub : List Char) : List Char → Bool
  | [] => sub.isEmpty
  | c :: rest => sub.isPrefixOf (c :: rest) || includesList sub rest

/-- JavaScript `String.prototype.includes`, a substring test. -/
def includesStr (s sub : String) : Bool := includesList sub.toList s.toList

/-- `DatabaseStorage.getUserGoals`: on a successful query, the goals of the
user ordered by `createdAt` descending; if the underlying query fails with
the missing-relation message, an empty list; on any other failure, a wrapped
error with a fixed message.  `dbRes` models the outcome of the db query. -/
def getUserGoals (userId : Nat) (dbRes : Except String (List Goal)) :
    Except String (List Goal) :=
  match dbRes with
  | .ok gs =>
      .ok (List.insertionSort goalGe (gs.filter (fun g => g.userId == userId)))
  | .error msg =>
      if includesStr msg missingGoalsRelationMsg then .ok []
      else .error loadGoalsFailedMsg

/-- `DatabaseStorage.getUserTransactions`: the transactions of the user
ordered by `createdAt` descending; it has no try/catch, so any query error
propagates unchanged. -/
def getUserTransactions (userId : Nat) (dbRes : Except String (List Transaction)) :
    Except String (List Transaction) :=
  dbRes.map (fun ts =>
    List.insertionSort txGe (ts.filter (fun t => t.userId == userId)))

/-! ### Statistics engine (`storage.ts`) -/

/-- The result record of `getDashboardStats`. -/
structure DashboardStats where
  totalBalance : ℚ
  monthlyIncome : ℚ
  monthlyExpenses : ℚ
  ecoRating : String
  co2Reduction : ℤ
  totalTransactions : Nat
deriving DecidableEq

/-- `DatabaseStorage.getDashboardStats`: aggregates over the transactions of
the user whose date has the month and year of `now` (the SQL
`EXTRACT(MONTH/YEAR FROM date)` filters, with `now` the current server
date). -/
def getDashboardStats (userId : Nat) (now : SDate) (txs : List Transaction) :
    DashboardStats :=
  let monthlyTransactions := txs.filter (fun t =>
    t.userId == userId && t.date.month == now.month && t.date.year == now.year)
  let income := (monthlyTransactions.filter (fun t => t.type == TxType.income)).foldl
    (fun acc t => acc + t.amount) 0
  let expenses := (monthlyTransactions.filter (fun t => t.type == TxType.expense)).foldl
    (fun acc t => acc + t.amount) 0
  let totalCo2 := monthlyTransactions.foldl (fun acc t => acc + t.ecoImpact) 0
  { totalBalance := income - expenses
    monthlyIncome := income
    monthlyExpenses := expenses
    ecoRating := ecoRatingOf totalCo2
    co2Reduction := max 0 (jsRound ((500 - totalCo2) / 500 * 100))
    totalTransactions := monthlyTransactions.length }

/-- One entry of the monthly report `topCategories` list. -/
structure CategoryEntry where
  category : String
  amount : ℚ
  percentage : ℤ
deriving DecidableEq

/-- Descending order by amount, the JS comparator
`(a, b) => b.amount - a.amount`. -/
def entryGe (a b : CategoryEntry) : Prop := b.amount ≤ a.amount

instance : DecidableRel entryGe := fun a b => inferInstanceAs (Decidable (b.amount ≤ a.amount))

instance : IsTotal CategoryEntry entryGe := ⟨fun a b => le_total b.amount a.amount⟩

instance : IsTrans CategoryEntry entryGe := ⟨fun _ _ _ hab hbc => le_trans hbc hab⟩

/-- One step of the JS `reduce` building `expensesByCategory`: add to an
existing key in place, or append a fresh key (JS objects keep string keys in
insertion order). -/
def upsert (acc : List (String × ℚ)) (key : String) (amt : ℚ) : List (String × ℚ) :=
  match acc with
  | [] => [(key, amt)]
  | (k, v) :: rest =>
      if k == key then (k, v + amt) :: rest else (k, v) :: upsert rest key amt

/-- The result record of `getMonthlyReport` (the static eco-advice strings
carry no logic and are not modelled). -/
structure MonthlyReport where
  month : Nat
  year : Nat
  totalIncome : ℚ
  totalExpenses : ℚ
  topCategories : List CategoryEntry
  totalCo2 : ℚ
  rating : String
deriving DecidableEq

/-- `DatabaseStorage.getMonthlyReport`: the month and year filters are
explicit parameters; expenses are grouped by category label, each group gets
`percentage = Math.round(amount / expenses * 100)`, the entries are sorted
descending by amount and the first 6 kept. -/
def getMonthlyReport (userId month year : Nat) (txs : List Transaction) :
    MonthlyReport :=
  let monthlyTransactions := txs.filter (fun t =>
    t.userId == userId && t.date.month == month && t.date.year == year)
  let income := (monthlyTransactions.filter (fun t => t.type == TxType.income)).foldl
    (fun acc t => acc + t.amount) 0
  let expenses := (monthlyTransactions.filter (fun t => t.type == TxType.expense)).foldl
    (fun acc t => acc + t.amount) 0
  let expensesByCategory := (monthlyTransactions.filter
    (fun t => t.type == TxType.expense)).foldl
    (fun acc t => upsert acc t.category t.amount) []
  let topCategories := (List.insertionSort entryGe
    (expensesByCategory.map (fun p =>
      CategoryEntry.mk p.1 p.2 (jsRound (p.2 / expenses * 100))))).take 6
  let totalCo2 := monthlyTransactions.foldl (fun acc t => acc + t.ecoImpact) 0
  { month := month
    year := year
    totalIncome := income
    totalExpenses := expenses
    topCategories := topCategories
    totalCo2 := totalCo2
    rating := ecoRatingOf totalCo2 }

/-! ### Route layer (`routes.ts`) -/

/-- Outcome of the login handler: a 200 response with token payload fields,
or a failure status with a message. -/
inductive LoginResult where
  | success (userId : Nat) (email : String)
  | failure (status : Nat) (message : String)
deriving DecidableEq

/-- `POST /api/auth/login` after schema validation: 401 with one fixed
message both when no user has the email and when `bcrypt.compare` rejects
the password.  `compare` stands for `bcrypt.compare`. -/
def loginRoute (compare : String → String → Bool) (s : Store)
    (email password : String) : LoginResult :=
  match getUserByEmail s email with
  | none => .failure 401 "Неверный email или пароль"
  | some u =>
      if compare password u.password then .success u.id u.email
      else .failure 401 "Неверный email или пароль"

/-- An HTTP status paired with a message body. -/
structure AuthResp where
  status : Nat
  message : String
deriving DecidableEq

/-- `POST /api/auth/forgot-password`: 404 when no user has the email;
otherwise one generic success message whether or not the reset email was
sent (`emailSent` stands for the `emailService` result). -/
def forgotPasswordRoute (s : Store) (email : String) (emailSent : Bool) : AuthResp :=
  match getUserByEmail s email with
  | none => ⟨404, "Пользователь с таким email не найден"⟩
  | some _ =>
      if emailSent then
        ⟨200, "Инструкции по восстановлению пароля отправлены на ваш email"⟩
      else
        ⟨200, "Инструкции по восстановлению пароля отправлены на ваш email"⟩

/-- The body of `POST /api/transactions` after `insertTransactionSchema`
validation and amount parsing. -/
structure CreateTxBody where
  type : TxType
  amount : ℚ
  category : String
  description : String
  date : SDate
  goalId : Option Nat
deriving DecidableEq

/-- `POST /api/transactions` happy path: computes the eco impact, inserts
the transaction for the caller, then, when a `goalId` is present and the
type is income, calls `updateGoalProgress` on that goal id with no ownership
check.  `newId` and `now` stand for the generated row id and timestamp.
Returns the resulting store and the inserted transaction. -/
def createTransactionRoute (callerUserId : Nat) (body : CreateTxBody)
    (newId now : Nat) (s : Store) : Store × Transaction :=
  let ecoImpact := computeEcoImpact body.amount body.category
  let tx : Transaction :=
    { id := newId
      userId := callerUserId
      type := body.type
      amount := body.amount
      category := body.category
      description := body.description
      date := body.date
      ecoImpact := ecoImpact
      createdAt := now }
  let s1 : Store := { s with transactions := s.transactions ++ [tx] }
  let s2 : Store :=
    match body.goalId with
    | some gid =>
        if body.type == TxType.income then
          { s1 with goals := updateGoalProgress gid body.amount s1.goals }
        else s1
    | none => s1
  (s2, tx)

/-- `DELETE /api/transactions/:id` after id parsing: 404 when the
transaction does not exist, 403 leaving the store unchanged when its owner
is not the caller, otherwise delete and 204. -/
def deleteTransactionRoute (callerUserId id : Nat) (s : Store) : Nat × Store :=
  match getTransaction s id with
  | none => (404, s)
  | some t =>
      if t.userId != callerUserId then (403, s)
      else (204, deleteTransaction s id)

/-- Outcome of a listing endpoint: a JSON list with a status, or an error
status with a message. -/
inductive ListResp (α : Type) where
  | json (status : Nat) (body : List α)
  | error (status : Nat) (message : String)
deriving DecidableEq

/-- `GET /api/goals`: on a storage error whose message contains the fixed
wrapped text, the catch block responds 200 with an empty list; otherwise
500. -/
def handleGetGoals (callerUserId : Nat) (dbRes : Except String (List Goal)) :
    ListResp Goal :=
  match getUserGoals callerUserId dbRes with
  | .ok gs => .json 200 gs
  | .error msg =>
      if includesStr msg loadGoalsFailedMsg then .json 200 []
      else .error 500 "Ошибка сервера"

/-- `GET /api/transactions`: any storage error becomes a 500 response; there
is no empty-list fallback on this endpoint. -/
def handleGetTransactions (callerUserId : Nat)
    (dbRes : Except String (List Transaction)) : ListResp Transaction :=
  match getUserTransactions callerUserId dbRes with
  | .ok ts => .json 200 ts
  | .error _ => .error 500 "Ошибка сервера"

/-! ### Helper definitions and concrete witness data -/

/-- Rank of a letter grade, best (A+) highest; used to state that the grade
only worsens as the cumulative figure grows. -/
def ratingRank (r : String) : Nat :=
  if r == "A+" then 5
  else if r == "A" then 4
  else if r == "B+" then 3
  else if r == "B" then 2
  else if r == "C+" then 1
  else 0

/-- A concrete store with a single registered user, for the login and
forgot-password witnesses. -/
def authStore : Store :=
  { users := [⟨1, "present@x.com", "hash1", "Ann", "Lee", 0⟩]
    transactions := []
    goals := [] }

/-- A store where goal 7 belongs to user 1, used to exercise the
goal-progress path of the create-transaction handler as user 2. -/
def crossUserStore : Store :=
  { users := [⟨1, "owner@x.com", "h1", "Olu", "Ade", 0⟩,
              ⟨2, "other@x.com", "h2", "Mia", "Kim", 0⟩]
    transactions := []
    goals := [⟨7, 1, "vacation", "", 1000, 0, none, false, 0⟩] }

/-- A store holding one transaction with id 5 owned by user 1, for the
delete-transaction witness. -/
def deleteStore : Store :=
  { users := []
    transactions := [⟨5, 1, TxType.expense, 30, "food", "", ⟨2024, 5, 2⟩, 4, 0⟩]
    goals := [] }

/-- A concrete unfinished goal with no target date, for the active-goals
witness. -/
def sampleActiveGoal : Goal := ⟨3, 1, "trip", "", 500, 100, none, false, 2⟩

/-- Amount stored for a category key in the accumulator association list. -/
def lookupAmt : List (String × ℚ) → String → Option ℚ
  | [], _ => none
  | (k, v) :: rest, c => if k == c then some v else lookupAmt rest c

/-- The total amount of the transactions in `E` whose category is `c`. -/
def catSum (E : List Transaction) (c : String) : ℚ :=
  ((E.filter (fun t => t.category == c)).map Transaction.amount).sum

/-- Three expense transactions of one user in one month whose rounded
category shares are 38, 38 and 25. -/
def c3Txs : List Transaction :=
  [⟨1, 1, TxType.expense, 3, "taxi", "", ⟨2024, 5, 1⟩, 0, 0⟩,
   ⟨2, 1, TxType.expense, 3, "cafe", "", ⟨2024, 5, 2⟩, 0, 1⟩,
   ⟨3, 1, TxType.expense, 2, "gift", "", ⟨2024, 5, 3⟩, 0, 2⟩]

/-! ### Helper lemmas -/

/-- The executable `jsRound` is the mathematical `⌊q + 1/2⌋`. -/
theorem jsRound_eq_floor (q : ℚ) : jsRound q = ⌊q + 1/2⌋ := by
  rw [jsRound, Rat.floor_def', ← Rat.floor_def]

/-! ### Claim C4: the eco rating step function -/

/-- C4: `ecoRating` is a pure step function of `totalCo2` with fixed
thresholds (`<50` gives A+, `<100` A, `<200` B+, `<300` B, `<500` C+, else
C), monotonically non-increasing in the grade order measured by
`ratingRank`; in particular 49 gives A+, 50 gives A, 499 gives C+ and 500
gives C. -/
theorem ecoRating_step_monotone :
    (∀ x : ℚ,
      (x < 50 → ecoRatingOf x = "A+") ∧
      (50 ≤ x → x < 100 → ecoRatingOf x = "A") ∧
      (100 ≤ x → x < 200 → ecoRatingOf x = "B+") ∧
      (200 ≤ x → x < 300 → ecoRatingOf x = "B") ∧
      (300 ≤ x → x < 500 → ecoRatingOf x = "C+") ∧
      (500 ≤ x → ecoRatingOf x = "C")) ∧
    (∀ x y : ℚ, x ≤ y → ratingRank (ecoRatingOf y) ≤ ratingRank (ecoRatingOf x)) ∧
    ecoRatingOf 49 = "A+" ∧ ecoRatingOf 50 = "A" ∧
    ecoRatingOf 499 = "C+" ∧ ecoRatingOf 500 = "C" := by
  refine ⟨fun x => ?_, fun x y hxy => ?_, by decide, by decide, by decide, by decide⟩
  · unfold ecoRatingOf
    refine ⟨fun h => ?_, fun h1 h2 => ?_, fun h1 h2 => ?_, fun h1 h2 => ?_,
      fun h1 h2 => ?_, fun h => ?_⟩ <;>
      split_ifs <;> first | rfl | linarith
  · unfold ecoRatingOf
    split_ifs <;> first | decide | linarith

/-- C4 witness: the step theorem applied at concrete inputs. -/
theorem ecoRating_step_monotone_witness :
    ecoRatingOf 150 = "B+" ∧ ratingRank (ecoRatingOf 600) ≤ ratingRank (ecoRatingOf 10) :=
  ⟨(ecoRating_step_monotone.1 150).2.2.1 (by norm_num) (by norm_num),
   ecoRating_step_monotone.2.1 10 600 (by norm_num)⟩

/-! ### Claim C5: eco impact factors at transaction creation -/

/-- C5: the transaction stored by the create handler carries
`ecoImpact = amount * factor(category)` with the fixed factors 0.20 for
transport, 0.15 for food, 0.10 for shopping, 0.25 for utilities and 0.05
otherwise; amount 100 gives 20 for transport, 15 for food and 5 for an
unknown category. -/
theorem createTransaction_ecoImpact_factors :
    (∀ (caller : Nat) (body : CreateTxBody) (newId now : Nat) (s : Store),
      ((createTransactionRoute caller body newId now s).2).ecoImpact
        = computeEcoImpact body.amount body.category ∧
      (createTransactionRoute caller body newId now s).2
        ∈ (createTransactionRoute caller body newId now s).1.transactions) ∧
    (∀ a : ℚ,
      computeEcoImpact a "transport" = a * 0.2 ∧
      computeEcoImpact a "food" = a * 0.15 ∧
      computeEcoImpact a "shopping" = a * 0.1 ∧
      computeEcoImpact a "utilities" = a * 0.25) ∧
    (∀ (a : ℚ) (c : String),
      c ≠ "transport" → c ≠ "food" → c ≠ "shopping" → c ≠ "utilities" →
      computeEcoImpact a c = a * 0.05) ∧
    computeEcoImpact 100 "transport" = 20 ∧
    computeEcoImpact 100 "food" = 15 ∧
    computeEcoImpact 100 "misc" = 5 := by
  refine ⟨fun caller body newId now s => ⟨rfl, ?_⟩,
    fun a => ⟨rfl, rfl, rfl, rfl⟩, fun a c h1 h2 h3 h4 => ?_,
    by simp [computeEcoImpact]; norm_num, by simp [computeEcoImpact]; norm_num,
    by simp [computeEcoImpact]; norm_num⟩
  · unfold createTransactionRoute
    cases body.goalId <;> [simp; skip]
    split_ifs <;> simp
  · simp only [computeEcoImpact, beq_iff_eq, if_neg h1, if_neg h2, if_neg h3, if_neg h4]

/-- C5 witness: the factor theorem applied at concrete inputs. -/
theorem createTransaction_ecoImpact_factors_witness :
    computeEcoImpact 100 "entertainment" = 100 * 0.05 ∧
    computeEcoImpact 7 "transport" = 7 * 0.2 :=
  ⟨createTransaction_ecoImpact_factors.2.2.1 100 "entertainment"
      (by decide) (by decide) (by decide) (by decide),
   (createTransaction_ecoImpact_factors.2.1 7).1⟩

/-! ### Claim C7: login failures are indistinguishable -/

/-- C7: a login attempt with a nonexistent email and one with an existing
email but a rejected password both fail with status 401 and the identical
message, so the two causes cannot be told apart by the caller. -/
theorem login_failure_indistinguishable :
    ∀ (compare : String → String → Bool) (s : Store) (e1 p1 e2 p2 : String),
      getUserByEmail s e1 = none →
      (∀ u, getUserByEmail s e2 = some u → compare p2 u.password = false) →
      loginRoute compare s e1 p1 = LoginResult.failure 401 "Неверный email или пароль" ∧
      loginRoute compare s e2 p2 = loginRoute compare s e1 p1 := by
  intro compare s e1 p1 e2 p2 h1 h2
  have r1 : loginRoute compare s e1 p1 = LoginResult.failure 401 "Неверный email или пароль" := by
    unfold loginRoute
    rw [h1]
  refine ⟨r1, ?_⟩
  rw [r1]
  unfold loginRoute
  cases hu : getUserByEmail s e2 with
  | none => rfl
  | some u => simp [h2 u hu]

/-- C7 witness: the indistinguishability theorem applied at a concrete
store, a nonexistent email, and a mismatched password. -/
theorem login_failure_indistinguishable_witness :
    loginRoute (fun p h => p == h) authStore "missing@x.com" "pw"
      = LoginResult.failure 401 "Неверный email или пароль" ∧
    loginRoute (fun p h => p == h) authStore "present@x.com" "wrong"
      = loginRoute (fun p h => p == h) authStore "missing@x.com" "pw" :=
  login_failure_indistinguishable (fun p h => p == h) authStore
    "missing@x.com" "pw" "present@x.com" "wrong" (by decide)
    (by intro u hu; simp [getUserByEmail, authStore] at hu; subst hu; decide)

/-! ### Claim C2: forgot-password response leaks account existence -/

/-- C2 counterexample: the forgot-password handler answers 404 with a
not-found message when no user carries the email, and the generic success
message when one does, so the response is not independent of whether the
email exists. -/
theorem forgotPassword_not_generic_counterexample :
    forgotPasswordRoute authStore "missing@x.com" true
      = ⟨404, "Пользователь с таким email не найден"⟩ ∧
    forgotPasswordRoute authStore "present@x.com" true
      = ⟨200, "Инструкции по восстановлению пароля отправлены на ваш email"⟩ ∧
    forgotPasswordRoute authStore "missing@x.com" true
      ≠ forgotPasswordRoute authStore "present@x.com" true :=
  ⟨rfl, rfl, by decide⟩

/-- C2 amended: when a user with the email exists the handler returns the
same generic success message regardless of whether the reset email was sent;
when no user has the email it returns 404 with a not-found message. -/
theorem forgotPassword_amended_spec :
    ∀ (s : Store) (email : String),
      ((∃ u, getUserByEmail s email = some u) →
        ∀ sent1 sent2 : Bool,
          forgotPasswordRoute s email sent1 = forgotPasswordRoute s email sent2 ∧
          forgotPasswordRoute s email sent1
            = ⟨200, "Инструкции по восстановлению пароля отправлены на ваш email"⟩) ∧
      (getUserByEmail s email = none →
        forgotPasswordRoute s email true
          = ⟨404, "Пользователь с таким email не найден"⟩) := by
  intro s email
  constructor
  · rintro ⟨u, hu⟩ sent1 sent2
    unfold forgotPasswordRoute
    rw [hu]
    cases sent1 <;> cases sent2 <;> exact ⟨rfl, rfl⟩
  · intro h
    unfold forgotPasswordRoute
    rw [h]

/-- C2 witness: the amended theorem applied at the concrete store for both
an existing and a missing email. -/
theorem forgotPassword_amended_spec_witness :
    (forgotPasswordRoute authStore "present@x.com" true
        = forgotPasswordRoute authStore "present@x.com" false ∧
      forgotPasswordRoute authStore "present@x.com" true
        = ⟨200, "Инструкции по восстановлению пароля отправлены на ваш email"⟩) ∧
    forgotPasswordRoute authStore "missing@x.com" true
      = ⟨404, "Пользователь с таким email не найден"⟩ :=
  ⟨(forgotPassword_amended_spec authStore "present@x.com").1
      ⟨⟨1, "present@x.com", "hash1", "Ann", "Lee", 0⟩, by decide⟩ true false,
   (forgotPassword_amended_spec authStore "missing@x.com").2 (by decide)⟩

/-! ### Claim C1: ownership of the goal updated at transaction creation -/

/-- C1: evaluating the create-transaction handler at the failing input.
User 2 posts an income transaction of 100 naming goalId 7, which user 1
owns; the handler increments that goal regardless: afterwards goal 7 still
has userId 1 while its currentSaved has grown to 100, so a caller mutated a
row owned by a different user. -/
theorem createTransaction_crossUser_goal_increment :
    ((createTransactionRoute 2 ⟨TxType.income, 100, "salary", "", ⟨2024, 5, 1⟩, some 7⟩
        10 1 crossUserStore).1.goals.find? (fun g => g.id == 7)).map
      (fun g => (g.userId, g.currentSaved)) = some (1, 100) ∧ (2 : Nat) ≠ 1 := by
  constructor
  · simp [createTransactionRoute, crossUserStore, updateGoalProgress, List.find?]
  · decide

/-! ### Claim C8: delete-transaction status codes and effect -/

/-- C8: deleting a transaction answers 404 when no transaction has the id,
403 leaving the store unchanged when its owner differs from the caller, and
otherwise 204 after which fetching the id finds nothing. -/
theorem deleteTransaction_spec :
    ∀ (caller id : Nat) (s : Store),
      (getTransaction s id = none → deleteTransactionRoute caller id s = (404, s)) ∧
      (∀ t, getTransaction s id = some t → t.userId ≠ caller →
        deleteTransactionRoute caller id s = (403, s)) ∧
      (∀ t, getTransaction s id = some t → t.userId = caller →
        (deleteTransactionRoute caller id s).1 = 204 ∧
        getTransaction (deleteTransactionRoute caller id s).2 id = none) := by
  intro caller id s
  refine ⟨fun h => ?_, fun t ht hne => ?_, fun t ht he => ?_⟩
  · unfold deleteTransactionRoute
    rw [h]
  · unfold deleteTransactionRoute
    rw [ht]
    simp [hne]
  · have hroute : deleteTransactionRoute caller id s = (204, deleteTransaction s id) := by
      unfold deleteTransactionRoute
      rw [ht]
      simp [he]
    rw [hroute]
    refine ⟨rfl, ?_⟩
    simp only [getTransaction, deleteTransaction, List.find?_eq_none, List.mem_filter,
      bne_iff_ne, ne_eq, beq_iff_eq, and_imp]
    intro x _ hx
    exact hx

/-- C8 witness: the three branches of the delete theorem at concrete
inputs: a missing id, a foreign owner, and the owner deleting their row. -/
theorem deleteTransaction_spec_witness :
    deleteTransactionRoute 1 99 deleteStore = (404, deleteStore) ∧
    deleteTransactionRoute 2 5 deleteStore = (403, deleteStore) ∧
    (deleteTransactionRoute 1 5 deleteStore).1 = 204 ∧
    getTransaction (deleteTransactionRoute 1 5 deleteStore).2 5 = none :=
  ⟨(deleteTransaction_spec 1 99 deleteStore).1 (by decide),
   (deleteTransaction_spec 2 5 deleteStore).2.1
     ⟨5, 1, TxType.expense, 30, "food", "", ⟨2024, 5, 2⟩, 4, 0⟩ rfl (by decide),
   (deleteTransaction_spec 1 5 deleteStore).2.2
     ⟨5, 1, TxType.expense, 30, "food", "", ⟨2024, 5, 2⟩, 4, 0⟩ rfl rfl⟩

/-! ### Claim C6: dashboard statistics -/

/-- Folding additions of a projected field equals the sum of the projected
list; bridges the `reduce` calls in `storage.ts` with `List.sum`. -/
theorem foldl_add_map {α : Type} (f : α → ℚ) (l : List α) (init : ℚ) :
    l.foldl (fun acc t => acc + f t) init = init + (l.map f).sum := by
  induction l generalizing init with
  | nil => simp
  | cons a l ih => rw [List.foldl_cons, ih, List.map_cons, List.sum_cons]; ring

/-- C6: the dashboard considers only the transactions of the caller dated in
the current month and year; over those, monthlyIncome is the sum of income
amounts, monthlyExpenses the sum of expense amounts, totalBalance their
difference, co2Reduction is max(0, round((500 - totalCo2)/500*100)) and
totalTransactions the count; the spec example (one income of 100 and one
expense of 40 this month) gives 60/100/40. -/
theorem dashboardStats_spec :
    (∀ (userId : Nat) (now : SDate) (txs : List Transaction),
      (getDashboardStats userId now txs).monthlyIncome
        = (((txs.filter (fun t => t.userId == userId && t.date.month == now.month &&
            t.date.year == now.year)).filter
            (fun t => t.type == TxType.income)).map Transaction.amount).sum ∧
      (getDashboardStats userId now txs).monthlyExpenses
        = (((txs.filter (fun t => t.userId == userId && t.date.month == now.month &&
            t.date.year == now.year)).filter
            (fun t => t.type == TxType.expense)).map Transaction.amount).sum ∧
      (getDashboardStats userId now txs).totalBalance
        = (getDashboardStats userId now txs).monthlyIncome
          - (getDashboardStats userId now txs).monthlyExpenses ∧
      (getDashboardStats userId now txs).co2Reduction
        = max 0 (jsRound ((500 - ((txs.filter (fun t => t.userId == userId &&
            t.date.month == now.month && t.date.year == now.year)).map
            Transaction.ecoImpact).sum) / 500 * 100)) ∧
      (getDashboardStats userId now txs).totalTransactions
        = (txs.filter (fun t => t.userId == userId && t.date.month == now.month &&
            t.date.year == now.year)).length) ∧
    (getDashboardStats 1 ⟨2024, 5, 15⟩
        [⟨1, 1, TxType.income, 100, "salary", "", ⟨2024, 5, 3⟩, 5, 0⟩,
         ⟨2, 1, TxType.expense, 40, "food", "", ⟨2024, 5, 7⟩, 6, 1⟩]).totalBalance = 60 ∧
    (getDashboardStats 1 ⟨2024, 5, 15⟩
        [⟨1, 1, TxType.income, 100, "salary", "", ⟨2024, 5, 3⟩, 5, 0⟩,
         ⟨2, 1, TxType.expense, 40, "food", "", ⟨2024, 5, 7⟩, 6, 1⟩]).monthlyIncome = 100 ∧
    (getDashboardStats 1 ⟨2024, 5, 15⟩
        [⟨1, 1, TxType.income, 100, "salary", "", ⟨2024, 5, 3⟩, 5, 0⟩,
         ⟨2, 1, TxType.expense, 40, "food", "", ⟨2024, 5, 7⟩, 6, 1⟩]).monthlyExpenses = 40 := by
  refine ⟨fun userId now txs => ?_, ?_, ?_, ?_⟩
  · simp [getDashboardStats, foldl_add_map, zero_add]
  all_goals
    norm_num [getDashboardStats, List.filter_cons, List.filter_nil, List.foldl_cons,
      List.foldl_nil,
      show ((TxType.expense == TxType.income) = false) from rfl,
      show ((TxType.income == TxType.expense) = false) from rfl,
      show ((TxType.income == TxType.income) = true) from rfl,
      show ((TxType.expense == TxType.expense) = true) from rfl]

/-! ### Claim C9: active goals -/

/-- C9: the active goals are exactly the goals of the caller with
targetAmount strictly above currentSaved whose targetDate is null or not
strictly before today, ordered newest-created first. -/
theorem activeGoals_spec :
    ∀ (userId : Nat) (today : SDate) (gs : List Goal),
      (∀ g, g ∈ getActiveGoals userId today gs ↔
        (g ∈ gs ∧ g.userId = userId ∧ g.currentSaved < g.targetAmount ∧
          (g.targetDate = none ∨ ∃ d, g.targetDate = some d ∧ SDate.le today d = true))) ∧
      List.Pairwise goalGe (getActiveGoals userId today gs) := by
  intro userId today gs
  constructor
  · intro g
    unfold getActiveGoals
    rw [List.mem_insertionSort, List.mem_filter]
    simp only [Bool.and_eq_true, beq_iff_eq, decide_eq_true_eq]
    constructor
    · rintro ⟨hmem, ⟨hu, hlt⟩, hdate⟩
      refine ⟨hmem, hu, hlt, ?_⟩
      cases hd : g.targetDate with
      | none => exact Or.inl rfl
      | some d =>
        right
        rw [hd] at hdate
        exact ⟨d, rfl, hdate⟩
    · rintro ⟨hmem, hu, hlt, hdate⟩
      refine ⟨hmem, ⟨hu, hlt⟩, ?_⟩
      rcases hdate with h | ⟨d, hd, hle⟩
      · rw [h]
      · rw [hd]
        exact hle
  · exact List.sorted_insertionSort goalGe _

/-- C9 witness: the characterization applied at a concrete goal list. -/
theorem activeGoals_spec_witness :
    sampleActiveGoal ∈ getActiveGoals 1 ⟨2024, 1, 1⟩ [sampleActiveGoal] :=
  ((activeGoals_spec 1 ⟨2024, 1, 1⟩ [sampleActiveGoal]).1 sampleActiveGoal).mpr
    ⟨List.mem_singleton_self _, rfl, by norm_num [sampleActiveGoal], Or.inl rfl⟩

/-! ### Claim C10: empty-list fallback of the listing endpoints -/

/-- C10 counterexample: on the missing-relation condition the transaction
listing answers 500, not an empty list, and the goal listing answers an
empty list even for a store error that is not the missing-relation
condition. -/
theorem listing_fallback_counterexample :
    handleGetTransactions 1 (Except.error "отношение \"transactions\" не существует")
      = ListResp.error 500 "Ошибка сервера" ∧
    handleGetGoals 1 (Except.error "connection refused") = ListResp.json 200 [] :=
  ⟨rfl, rfl⟩

/-- C10 amended: the goal listing endpoint answers 200 with an empty list on
every store error (the storage layer answers an empty list itself on the
missing-relation condition and otherwise rethrows a fixed message that the
route catch always converts to an empty list), while the transaction listing
endpoint answers 500 on every store error, with no empty-list fallback. -/
theorem listing_fallback_amended_spec :
    ∀ (u : Nat) (msg : String),
      handleGetGoals u (Except.error msg) = ListResp.json 200 [] ∧
      handleGetTransactions u (Except.error msg) = ListResp.error 500 "Ошибка сервера" := by
  intro u msg
  refine ⟨?_, rfl⟩
  unfold handleGetGoals getUserGoals
  by_cases h : includesStr msg missingGoalsRelationMsg
  · simp [h]
  · have hself : includesStr loadGoalsFailedMsg loadGoalsFailedMsg = true := rfl
    simp [h, hself]

/-- C10 witness: the amended theorem applied at a concrete store error. -/
theorem listing_fallback_amended_spec_witness :
    handleGetGoals 3 (Except.error "disk failure") = ListResp.json 200 [] ∧
    handleGetTransactions 3 (Except.error "disk failure")
      = ListResp.error 500 "Ошибка сервера" :=
  listing_fallback_amended_spec 3 "disk failure"

/-! ### Claim C3: monthly report top categories -/

/-- `upsert` adds to the looked-up key and leaves every other key alone. -/
theorem lookupAmt_upsert (acc : List (String × ℚ)) (key c : String) (amt : ℚ) :
    lookupAmt (upsert acc key amt) c =
      if c = key then some ((lookupAmt acc c).getD 0 + amt) else lookupAmt acc c := by
  induction acc with
  | nil =>
    by_cases h : c = key
    · subst h
      simp [upsert, lookupAmt]
    · simp [upsert, lookupAmt, h, Ne.symm h]
  | cons p rest ih =>
    obtain ⟨k, v⟩ := p
    by_cases hk : k = key
    · subst hk
      by_cases hc : c = k
      · subst hc
        simp [upsert, lookupAmt]
      · simp [upsert, lookupAmt, hc, Ne.symm hc]
    · by_cases hc : k = c
      · subst hc
        simp [upsert, lookupAmt, hk, Ne.symm hk]
      · simp [upsert, lookupAmt, hk, hc, ih]

/-- Folding `upsert` over transactions accumulates exactly the per-category
sums. -/
theorem lookupAmt_foldl_upsert (E : List Transaction) :
    ∀ (acc : List (String × ℚ)) (c : String),
      lookupAmt (E.foldl (fun a t => upsert a t.category t.amount) acc) c =
        if (E.filter (fun t => t.category == c)).isEmpty then lookupAmt acc c
        else some ((lookupAmt acc c).getD 0 + catSum E c) := by
  induction E with
  | nil =>
    intro acc c
    simp [catSum]
  | cons t E ih =>
    intro acc c
    rw [List.foldl_cons, ih]
    by_cases hc : t.category = c
    · subst hc
      rw [lookupAmt_upsert, if_pos rfl]
      by_cases he : (E.filter (fun x => x.category == t.category)).isEmpty
      · have h4 : E.filter (fun x => x.category == t.category) = [] :=
          List.isEmpty_iff.mp he
        simp [he, List.filter_cons, catSum, h4]
      · simp [he, List.filter_cons, catSum, add_assoc]
    · simp [List.filter_cons, hc, catSum, lookupAmt_upsert, Ne.symm hc]

/-- The key list of `upsert` either is unchanged or gains the new key. -/
theorem keys_upsert (acc : List (String × ℚ)) (key : String) (amt : ℚ) :
    (upsert acc key amt).map Prod.fst = acc.map Prod.fst ∨
    (upsert acc key amt).map Prod.fst = acc.map Prod.fst ++ [key] := by
  induction acc with
  | nil =>
    right
    rfl
  | cons p rest ih =>
    obtain ⟨k, v⟩ := p
    by_cases hk : k = key
    · left
      simp [upsert, hk]
    · rcases ih with h | h
      · left
        simp [upsert, hk, h]
      · right
        simp [upsert, hk, h]

/-- `upsert` keeps the keys of the accumulator without duplicates. -/
theorem nodup_keys_upsert (acc : List (String × ℚ)) (key : String) (amt : ℚ)
    (h : (acc.map Prod.fst).Nodup) : ((upsert acc key amt).map Prod.fst).Nodup := by
  induction acc with
  | nil => simp [upsert]
  | cons p rest ih =>
    obtain ⟨k, v⟩ := p
    simp only [List.map_cons, List.nodup_cons] at h
    by_cases hk : k = key
    · subst hk
      simp only [upsert, beq_self_eq_true, if_true, List.map_cons, List.nodup_cons]
      exact ⟨h.1, h.2⟩
    · have hbk : (k == key) = false := by simp [hk]
      simp only [upsert, hbk, Bool.false_eq_true, if_false, List.map_cons, List.nodup_cons]
      refine ⟨?_, ih h.2⟩
      rcases keys_upsert rest key amt with hkeys | hkeys
      · rw [hkeys]
        exact h.1
      · rw [hkeys]
        simp [h.1, hk]

/-- The accumulator built by the fold has no duplicate keys. -/
theorem nodup_keys_foldl_upsert (E : List Transaction) :
    ∀ acc : List (String × ℚ), (acc.map Prod.fst).Nodup →
      ((E.foldl (fun a t => upsert a t.category t.amount) acc).map Prod.fst).Nodup := by
  induction E with
  | nil =>
    intro acc h
    simpa using h
  | cons t E ih =>
    intro acc h
    rw [List.foldl_cons]
    exact ih _ (nodup_keys_upsert _ _ _ h)

/-- In an accumulator with distinct keys, membership determines the lookup. -/
theorem lookupAmt_of_mem (acc : List (String × ℚ)) (c : String) (v : ℚ)
    (hnd : (acc.map Prod.fst).Nodup) (h : (c, v) ∈ acc) : lookupAmt acc c = some v := by
  induction acc with
  | nil => simp at h
  | cons p rest ih =>
    obtain ⟨k, w⟩ := p
    simp only [List.map_cons, List.nodup_cons] at hnd
    rcases List.mem_cons.mp h with he | hm
    · rw [Prod.mk.injEq] at he
      obtain ⟨rfl, rfl⟩ := he
      simp [lookupAmt]
    · have hne : k ≠ c := by
        intro hkc
        subst hkc
        exact hnd.1 (List.mem_map.mpr ⟨(k, v), hm, rfl⟩)
      simp [lookupAmt, hne, ih hnd.2 hm]

/-- C3 counterexample: with expenses 3, 3 and 2 in three categories the
rounded percentages are 38, 38 and 25, and their sum 101 exceeds 100, so
the percentages of the returned entries do not always sum to at most 100. -/
theorem monthlyReport_percentage_sum_exceeds_100 :
    ((getMonthlyReport 1 5 2024 c3Txs).topCategories.map CategoryEntry.percentage)
      = [38, 38, 25] ∧
    ¬ (((getMonthlyReport 1 5 2024 c3Txs).topCategories.map
        CategoryEntry.percentage).sum ≤ 100) := by
  have h : ((getMonthlyReport 1 5 2024 c3Txs).topCategories.map CategoryEntry.percentage)
      = [38, 38, 25] := by
    norm_num [getMonthlyReport, c3Txs, upsert, List.insertionSort, List.orderedInsert,
      entryGe, jsRound_eq_floor]
  refine ⟨h, ?_⟩
  rw [h]
  decide

/-- C3 amended: topCategories holds at most 6 entries sorted descending by
amount; each entry carries its category total over the monthly expenses and
its percentage is the rounded share of total expenses; because of the
rounding the percentages can sum above 100. -/
theorem monthlyReport_topCategories_spec :
    ∀ (userId month year : Nat) (txs : List Transaction),
      (getMonthlyReport userId month year txs).topCategories.length ≤ 6 ∧
      List.Pairwise entryGe (getMonthlyReport userId month year txs).topCategories ∧
      ∀ e ∈ (getMonthlyReport userId month year txs).topCategories,
        e.percentage
          = jsRound (e.amount / (getMonthlyReport userId month year txs).totalExpenses * 100) ∧
        e.amount = catSum ((txs.filter (fun t => t.userId == userId &&
          t.date.month == month && t.date.year == year)).filter
          (fun t => t.type == TxType.expense)) e.category := by
  intro userId month year txs
  refine ⟨?_, ?_, ?_⟩
  · simp only [getMonthlyReport]
    exact List.length_take_le 6 _
  · simp only [getMonthlyReport]
    exact List.Pairwise.sublist (List.take_sublist 6 _) (List.sorted_insertionSort entryGe _)
  · intro e he
    simp only [getMonthlyReport] at he ⊢
    have he2 := List.mem_of_mem_take he
    rw [List.mem_insertionSort] at he2
    obtain ⟨p, hp, rfl⟩ := List.mem_map.mp he2
    refine ⟨rfl, ?_⟩
    have hnd := nodup_keys_foldl_upsert
      ((txs.filter (fun t => t.userId == userId && t.date.month == month &&
        t.date.year == year)).filter (fun t => t.type == TxType.expense)) [] (by simp)
    have hl := lookupAmt_of_mem _ p.1 p.2 hnd hp
    rw [lookupAmt_foldl_upsert] at hl
    by_cases hemp : (((txs.filter (fun t => t.userId == userId && t.date.month == month &&
        t.date.year == year)).filter (fun t => t.type == TxType.expense)).filter
        (fun t => t.category == p.1)).isEmpty
    · rw [if_pos hemp] at hl
      simp [lookupAmt] at hl
    · rw [if_neg hemp] at hl
      simp only [lookupAmt, Option.getD_none, zero_add, Option.some.injEq] at hl
      exact hl.symm

/-- C3 witness: the amended theorem applied at a concrete entry of a
concrete report. -/
theorem monthlyReport_topCategories_spec_witness :
    (CategoryEntry.mk "taxi" 3 38).percentage
      = jsRound ((CategoryEntry.mk "taxi" 3 38).amount
          / (getMonthlyReport 1 5 2024 c3Txs).totalExpenses * 100) ∧
    (getMonthlyReport 1 5 2024 c3Txs).topCategories.length ≤ 6 := by
  have hmem : CategoryEntry.mk "taxi" 3 38 ∈ (getMonthlyReport 1 5 2024 c3Txs).topCategories := by
    norm_num [getMonthlyReport, c3Txs, upsert, List.insertionSort, List.orderedInsert,
      entryGe, jsRound_eq_floor]
  exact ⟨((monthlyReport_topCategories_spec 1 5 2024 c3Txs).2.2 _ hmem).1,
         (monthlyReport_topCategories_spec 1 5 2024 c3Txs).1⟩

end FinanceApp
